import Mathlib

/-!
Verification development for the ATAC GTFS-Realtime ingestion script
(`scripts/ingest.py`): a shallow embedding of its data model, the three
entity flatteners (`parse_vehicle_positions`, `parse_trip_updates`,
`parse_alerts`), the partition store (`append_to_parquet`), the feed
client (`fetch_feed`) and the poll cycle (`run_once`), together with
theorems settling the specification's claims about them.

Modelling conventions:
- Protobuf sub-messages guarded by `HasField` in the Python code are
  `Option` fields; accessing an unset message field in python-protobuf
  yields the default instance, modelled by `Option.getD` with an explicit
  default value whose scalars are the proto defaults (0 / empty string).
- Python `None` row values become `Value.none`; Python dict rows become
  association lists (`FlatRow`), preserving the literal key order of the
  source, so that the fixed-field-set property is expressible.
- Latitude/longitude/bearing/speed are IEEE floats in the source; the
  flattener only copies them from the feed into the row and never
  computes with them, so they are modelled as `Int` (any type with
  decidable equality would do; no floating-point semantics is involved).
- `requests.get`, protobuf decoding and the filesystem are oracles passed
  as explicit function arguments; effects are recorded as traces.
-/

/-- A scalar cell of a flat row: string, integer, or the explicit absence
marker (Python `None`). -/
inductive Value where
  | s : String → Value
  | i : Int → Value
  | none : Value
deriving DecidableEq, Repr

/-- A flattened row: the Python dict literal of the source, as an
association list preserving key order. -/
abbrev FlatRow := List (String × Value)

/-- GTFS-RT `TripDescriptor` (the fields the script reads). -/
structure TripDescriptor where
  trip_id : String
  route_id : String
  direction_id : Nat
  start_date : String
deriving DecidableEq, Repr

/-- GTFS-RT `VehicleDescriptor` (the fields the script reads). -/
structure VehicleDescriptor where
  id : String
  label : String
deriving DecidableEq, Repr

/-- GTFS-RT `Position`; float fields carried as opaque integers (copied,
never computed with). -/
structure Position where
  latitude : Int
  longitude : Int
  bearing : Int
  speed : Int
deriving DecidableEq, Repr

/-- GTFS-RT `VehiclePosition`. `trip`, `vehicle`, `position` are the
sub-messages the script guards with `HasField`. -/
structure VehiclePosition where
  trip : Option TripDescriptor
  vehicle : Option VehicleDescriptor
  position : Option Position
  current_stop_sequence : Nat
  stop_id : String
  current_status : Nat
  timestamp : Nat
deriving DecidableEq, Repr

/-- The default (all-unset) `VehiclePosition` instance python-protobuf
returns when `entity.vehicle` is not set. -/
def defVP : VehiclePosition :=
  { trip := Option.none, vehicle := Option.none, position := Option.none,
    current_stop_sequence := 0, stop_id := "", current_status := 0, timestamp := 0 }

/-- GTFS-RT `StopTimeEvent`. -/
structure StopTimeEvent where
  delay : Int
  time : Int
deriving DecidableEq, Repr

/-- GTFS-RT `StopTimeUpdate`; `arrival`/`departure` guarded with `HasField`. -/
structure StopTimeUpdate where
  stop_sequence : Nat
  stop_id : String
  arrival : Option StopTimeEvent
  departure : Option StopTimeEvent
  schedule_relationship : Nat
deriving DecidableEq, Repr

/-- GTFS-RT `TripUpdate`. -/
structure TripUpdate where
  trip : Option TripDescriptor
  vehicle : Option VehicleDescriptor
  stop_time_update : List StopTimeUpdate
deriving DecidableEq, Repr

/-- The default (all-unset) `TripUpdate` instance. -/
def defTU : TripUpdate :=
  { trip := Option.none, vehicle := Option.none, stop_time_update := [] }

/-- GTFS-RT `EntitySelector` (an informed entity of an alert). -/
structure EntitySelector where
  agency_id : String
  route_id : String
  trip : Option TripDescriptor
  stop_id : String
deriving DecidableEq, Repr

/-- One translation of a GTFS-RT `TranslatedString`. -/
structure Translation where
  text : String
deriving DecidableEq, Repr

/-- GTFS-RT `TranslatedString`: a list of translations. -/
structure TranslatedString where
  translation : List Translation
deriving DecidableEq, Repr

/-- GTFS-RT `Alert` (the fields the script reads). -/
structure Alert where
  informed_entity : List EntitySelector
  cause : Nat
  effect : Nat
  header_text : Option TranslatedString
  description_text : Option TranslatedString
deriving DecidableEq, Repr

/-- The default (all-unset) `Alert` instance; its translated-text blocks
read back as empty translation lists. -/
def defAlert : Alert :=
  { informed_entity := [], cause := 0, effect := 0,
    header_text := Option.none, description_text := Option.none }

/-- A feed entity: an id plus the three variant sub-messages. Accessing an
unset variant in python-protobuf yields the default instance (`getD`). -/
structure Entity where
  id : String
  vehicle : Option VehiclePosition
  trip_update : Option TripUpdate
  alert : Option Alert
deriving DecidableEq, Repr

/-- GTFS-RT `FeedHeader` (the script reads only the timestamp). -/
structure FeedHeader where
  timestamp : Nat
deriving DecidableEq, Repr

/-- GTFS-RT `FeedMessage`: header plus entity list. -/
structure FeedMessage where
  header : FeedHeader
  entity : List Entity
deriving DecidableEq, Repr

/-- The row dict built for one entity by `parse_vehicle_positions`
(`ingest.py` lines 54-76), key order as in the source. -/
def vpRow (ts : Nat) (e : Entity) : FlatRow :=
  let vp := e.vehicle.getD defVP
  [("feed_timestamp", .i ts),
   ("entity_id", .s e.id),
   ("trip_id", match vp.trip with | some t => .s t.trip_id | Option.none => .none),
   ("route_id", match vp.trip with | some t => .s t.route_id | Option.none => .none),
   ("direction_id", match vp.trip with | some t => .i t.direction_id | Option.none => .none),
   ("start_date", match vp.trip with | some t => .s t.start_date | Option.none => .none),
   ("vehicle_id", match vp.vehicle with | some v => .s v.id | Option.none => .none),
   ("vehicle_label", match vp.vehicle with | some v => .s v.label | Option.none => .none),
   ("latitude", match vp.position with | some p => .i p.latitude | Option.none => .none),
   ("longitude", match vp.position with | some p => .i p.longitude | Option.none => .none),
   ("bearing", match vp.position with | some p => .i p.bearing | Option.none => .none),
   ("speed", match vp.position with | some p => .i p.speed | Option.none => .none),
   ("current_stop_sequence", .i vp.current_stop_sequence),
   ("stop_id", if vp.stop_id = "" then .none else .s vp.stop_id),
   ("current_status", .i vp.current_status),
   ("vehicle_timestamp", .i vp.timestamp)]

/-- `parse_vehicle_positions`: one row appended per entity, no variant
check (`for entity in feed.entity: rows.append({...})`). -/
def parse_vehicle_positions (feed : FeedMessage) : List FlatRow :=
  feed.entity.map (vpRow feed.header.timestamp)

/-- The row dict built for one (entity, stop_time_update) pair by
`parse_trip_updates` (`ingest.py` lines 93-110); the trip/vehicle level
values are computed from `tu` once and broadcast. -/
def tuRow (ts : Nat) (eid : String) (tu : TripUpdate) (stu : StopTimeUpdate) : FlatRow :=
  [("feed_timestamp", .i ts),
   ("entity_id", .s eid),
   ("trip_id", match tu.trip with | some t => .s t.trip_id | Option.none => .none),
   ("route_id", match tu.trip with | some t => .s t.route_id | Option.none => .none),
   ("start_date", match tu.trip with | some t => .s t.start_date | Option.none => .none),
   ("vehicle_id", match tu.vehicle with | some v => .s v.id | Option.none => .none),
   ("stop_sequence", .i stu.stop_sequence),
   ("stop_id", if stu.stop_id = "" then .none else .s stu.stop_id),
   ("arrival_delay", match stu.arrival with | some a => .i a.delay | Option.none => .none),
   ("arrival_time", match stu.arrival with | some a => .i a.time | Option.none => .none),
   ("departure_delay", match stu.departure with | some d => .i d.delay | Option.none => .none),
   ("departure_time", match stu.departure with | some d => .i d.time | Option.none => .none),
   ("schedule_relationship", .i stu.schedule_relationship)]

/-- The block of rows one entity contributes in `parse_trip_updates`: one
row per element of `stop_time_update`. -/
def tuRows (ts : Nat) (e : Entity) : List FlatRow :=
  let tu := e.trip_update.getD defTU
  tu.stop_time_update.map (tuRow ts e.id tu)

/-- `parse_trip_updates`: the concatenation of each entity's block. -/
def parse_trip_updates (feed : FeedMessage) : List FlatRow :=
  feed.entity.flatMap (tuRows feed.header.timestamp)

/-- The row dict built for one (entity, informed-entity) pair by
`parse_alerts` (`ingest.py` lines 129-141). `ie = Option.none` is the
placeholder the source inserts (`informed = list(...) or [None]`) when an
alert has no informed entities. The header and description text take the
first available translation, defaulting to the empty string. -/
def alertRow (ts : Nat) (eid : String) (alert : Alert) (ie : Option EntitySelector) : FlatRow :=
  let header_text :=
    match (alert.header_text.getD ⟨[]⟩).translation with
    | [] => ""
    | t :: _ => t.text
  let description_text :=
    match (alert.description_text.getD ⟨[]⟩).translation with
    | [] => ""
    | t :: _ => t.text
  [("feed_timestamp", .i ts),
   ("entity_id", .s eid),
   ("cause", .i alert.cause),
   ("effect", .i alert.effect),
   ("header_text", .s header_text),
   ("description_text", .s description_text),
   ("route_id", match ie with
     | some sel => if sel.route_id = "" then .none else .s sel.route_id
     | Option.none => .none),
   ("trip_id", match ie with
     | some sel => (match sel.trip with | some t => .s t.trip_id | Option.none => .none)
     | Option.none => .none),
   ("stop_id", match ie with
     | some sel => if sel.stop_id = "" then .none else .s sel.stop_id
     | Option.none => .none),
   ("agency_id", match ie with
     | some sel => if sel.agency_id = "" then .none else .s sel.agency_id
     | Option.none => .none)]

/-- The block of rows one entity contributes in `parse_alerts`: one row
per informed entity, or a single row on the `[None]` placeholder when the
informed-entity list is empty. -/
def alertRows (ts : Nat) (e : Entity) : List FlatRow :=
  let alert := e.alert.getD defAlert
  let informed : List (Option EntitySelector) :=
    match alert.informed_entity with
    | [] => [Option.none]
    | l => l.map some
  informed.map (alertRow ts e.id alert)

/-- `parse_alerts`: the concatenation of each entity's block. -/
def parse_alerts (feed : FeedMessage) : List FlatRow :=
  feed.entity.flatMap (alertRows feed.header.timestamp)

/-- The fixed key set of a vehicle-position row. -/
def vpFieldNames : List String :=
  ["feed_timestamp", "entity_id", "trip_id", "route_id", "direction_id",
   "start_date", "vehicle_id", "vehicle_label", "latitude", "longitude",
   "bearing", "speed", "current_stop_sequence", "stop_id", "current_status",
   "vehicle_timestamp"]

/-- The fixed key set of a trip-update row. -/
def tuFieldNames : List String :=
  ["feed_timestamp", "entity_id", "trip_id", "route_id", "start_date",
   "vehicle_id", "stop_sequence", "stop_id", "arrival_delay", "arrival_time",
   "departure_delay", "departure_time", "schedule_relationship"]

/-- The fixed key set of an alert row. -/
def alertFieldNames : List String :=
  ["feed_timestamp", "entity_id", "cause", "effect", "header_text",
   "description_text", "route_id", "trip_id", "stop_id", "agency_id"]

/-- A filesystem operation performed by the partition store. `mkdir` is
`out_dir.mkdir(parents=True, exist_ok=True)`, `readFile` is
`pd.read_parquet(path)`, `write` is `df.to_parquet(path)` — a direct
write of the full content to the named path — and `rename` is an atomic
`os.rename`-style move (available in the vocabulary so that the presence
or absence of a temporary-file-then-rename step is expressible). -/
inductive FsOp where
  | mkdir : String → FsOp
  | readFile : String → FsOp
  | write : String → List FlatRow → FsOp
  | rename : String → String → FsOp
deriving DecidableEq, Repr

/-- Filesystem state: the set of directories and a map from file path to
partition content (an association list). -/
structure Fs where
  dirs : List String
  files : List (String × List FlatRow)
deriving DecidableEq, Repr

/-- Look a path up in the file map. -/
def findFile : List (String × List FlatRow) → String → Option (List FlatRow)
  | [], _ => Option.none
  | (q, w) :: t, p => if q = p then some w else findFile t p

/-- Overwrite (or create) a path in the file map. -/
def setFile : List (String × List FlatRow) → String → List FlatRow → List (String × List FlatRow)
  | [], p, v => [(p, v)]
  | (q, w) :: t, p, v => if q = p then (p, v) :: t else (q, w) :: setFile t p v

/-- The per-feed-kind partition directory `RAW_DIR / feed_type`. -/
def partDir (feed_type : String) : String := "raw/" ++ feed_type

/-- The daily partition path `RAW_DIR / feed_type / f"{today}.parquet"`. -/
def partPath (feed_type today : String) : String :=
  partDir feed_type ++ "/" ++ today ++ ".parquet"

/-- `append_to_parquet(rows, feed_type)` (`ingest.py` lines 156-171).
`today` — computed in the source from the current UTC clock — is an
explicit parameter. Returns the new filesystem state and the trace of
filesystem operations performed, in order. An empty batch returns before
touching the filesystem; otherwise the partition directory is created,
and the combined (existing ++ new) content — or just the new rows when
the partition does not exist — is written directly to the final partition
path by `df.to_parquet(path)`. -/
def append_to_parquet (fs : Fs) (rows : List FlatRow) (feed_type today : String) :
    Fs × List FsOp :=
  match rows with
  | [] => (fs, [])
  | _ =>
    let dir := partDir feed_type
    let path := partPath feed_type today
    let dirs2 := if dir ∈ fs.dirs then fs.dirs else dir :: fs.dirs
    match findFile fs.files path with
    | some existing =>
        let combined := existing ++ rows
        ({ dirs := dirs2, files := setFile fs.files path combined },
         [.mkdir dir, .readFile path, .write path combined])
    | Option.none =>
        ({ dirs := dirs2, files := (path, rows) :: fs.files },
         [.mkdir dir, .write path rows])

/-- Whether a trace contains a rename operation. -/
def hasRename (ops : List FsOp) : Bool :=
  ops.any fun op => match op with | .rename _ _ => true | _ => false

/-- Whether a trace contains a write to a path other than `p`
(e.g. to a temporary path). -/
def writesOutside (ops : List FsOp) (p : String) : Bool :=
  ops.any fun op => match op with | .write q _ => q ≠ p | _ => false

/-- The error taxonomy of the pipeline: transport (HTTP/network), decode
(malformed protobuf payload), storage (filesystem failure). -/
inductive IngestError where
  | transport : IngestError
  | decode : IngestError
  | storage : IngestError
deriving DecidableEq, Repr

/-- One HTTP GET issued by the feed client: URL and timeout seconds. -/
structure HttpGetCall where
  url : String
  timeout : Nat
deriving DecidableEq, Repr

/-- Outcome of one HTTP GET: a network-level failure (connection error or
timeout, which `requests` raises), or a response with a status code and a
body. -/
inductive HttpResult where
  | networkFailure : HttpResult
  | response : Nat → List Nat → HttpResult
deriving DecidableEq, Repr

/-- `fetch_feed(url)` (`ingest.py` lines 37-43). `get` is the network
oracle (`requests.get`), `decodeFM` the protobuf decoding oracle
(`FeedMessage.ParseFromString`). The result pairs the outcome with the
trace of GET calls issued. A single GET with `timeout=30` is issued;
`response.raise_for_status()` raises `HTTPError` (a transport error)
exactly for status codes 400-599; a payload the decoder rejects raises a
protobuf `DecodeError`; otherwise the decoded message is returned. No
retry happens inside this call. -/
def fetch_feed (get : String → Nat → HttpResult)
    (decodeFM : List Nat → Option FeedMessage) (url : String) :
    Except IngestError FeedMessage × List HttpGetCall :=
  let calls := [HttpGetCall.mk url 30]
  match get url 30 with
  | .networkFailure => (.error .transport, calls)
  | .response status body =>
      if 400 ≤ status ∧ status < 600 then (.error .transport, calls)
      else
        match decodeFM body with
        | Option.none => (.error .decode, calls)
        | some feed => (.ok feed, calls)

/-- The `FEEDS` dict of the source: feed kind to endpoint URL, in
iteration (insertion) order. -/
def FEEDS : List (String × String) :=
  [("vehicle_positions",
    "https://romamobilita.it/sites/default/files/rome_rtgtfs_vehicle_positions_feed.pb"),
   ("trip_updates",
    "https://romamobilita.it/sites/default/files/rome_rtgtfs_trip_updates_feed.pb"),
   ("alerts",
    "https://romamobilita.it/sites/default/files/rome_rtgtfs_service_alerts_feed.pb")]

/-- The `PARSERS` dict as a dispatch: `PARSERS[feed_type]`. Its keys in
the source are exactly the keys of `FEEDS`, so lookup cannot fail for a
configured feed kind; the fallback branch is unreachable from `run_once`. -/
def runParser (feed_type : String) (feed : FeedMessage) : List FlatRow :=
  if feed_type = "vehicle_positions" then parse_vehicle_positions feed
  else if feed_type = "trip_updates" then parse_trip_updates feed
  else if feed_type = "alerts" then parse_alerts feed
  else []

/-- The body of `run_once`'s `try` block for one feed kind: fetch (which
may fail with a transport or decode error), flatten (pure), store (which
may fail with a storage error, injected by the oracle `storeO`). The
returned `Option IngestError` is the exception, if any, that the
enclosing `except` catches and logs for this feed kind. -/
def processOne (fetchO : String → Except IngestError FeedMessage)
    (storeO : String → Option IngestError)
    (fs : Fs) (today feed_type url : String) : Fs × Option IngestError :=
  match fetchO url with
  | .error e => (fs, some e)
  | .ok feed =>
      let rows := runParser feed_type feed
      match storeO feed_type with
      | some e => (fs, some e)
      | Option.none => ((append_to_parquet fs rows feed_type today).1, Option.none)

/-- The `for feed_type, url in FEEDS.items()` loop of `run_once`: each
iteration runs `processOne` inside try/except, records the caught error
(if any) in the cycle log, and continues with the next feed kind. -/
def run_cycle (fetchO : String → Except IngestError FeedMessage)
    (storeO : String → Option IngestError) (today : String) :
    Fs → List (String × String) → Fs × List (String × Option IngestError)
  | fs, [] => (fs, [])
  | fs, p :: rest =>
      let r := processOne fetchO storeO fs today p.1 p.2
      let rec2 := run_cycle fetchO storeO today r.1 rest
      (rec2.1, (p.1, r.2) :: rec2.2)

/-- `run_once` (`ingest.py` lines 178-187): one cycle over all configured
feeds. -/
def run_once (fetchO : String → Except IngestError FeedMessage)
    (storeO : String → Option IngestError) (today : String) (fs : Fs) :
    Fs × List (String × Option IngestError) :=
  run_cycle fetchO storeO today fs FEEDS

/-- The outcome one feed kind's stages produce on their own, independent
of every other feed kind: the fetch error if fetching fails, otherwise
the storage error if storing fails, otherwise success. -/
def stageOutcome (fetchO : String → Except IngestError FeedMessage)
    (storeO : String → Option IngestError) (feed_type url : String) :
    Option IngestError :=
  match fetchO url with
  | .error e => some e
  | .ok _ => storeO feed_type

/-- A concrete stored row (fixture). -/
def rowA : FlatRow := [("feed_timestamp", Value.i 1)]

/-- A concrete incoming row (fixture). -/
def rowB : FlatRow := [("feed_timestamp", Value.i 2)]

/-- A filesystem already holding a one-row vehicle-positions partition for
2026-02-03 (fixture). -/
def fsC1 : Fs :=
  { dirs := [partDir "vehicle_positions"],
    files := [(partPath "vehicle_positions" "2026-02-03", [rowA])] }

/-- A filesystem already holding a one-row alerts partition (fixture). -/
def fsC6 : Fs :=
  { dirs := [partDir "alerts"],
    files := [(partPath "alerts" "2026-02-03", [rowA])] }

/-- An alert with no informed entities and no translated text (fixture). -/
def alertNoTrans : Alert :=
  { informed_entity := [], cause := 1, effect := 2,
    header_text := Option.none, description_text := Option.none }

/-- The same alert, but with a present header translation whose text is
the empty string (fixture). -/
def alertEmptyTrans : Alert :=
  { informed_entity := [], cause := 1, effect := 2,
    header_text := some ⟨[⟨""⟩]⟩, description_text := Option.none }

/-- Entity and feed around `alertNoTrans` (fixture). -/
def feedANT : FeedMessage :=
  { header := ⟨100⟩,
    entity := [{ id := "a1", vehicle := Option.none, trip_update := Option.none,
                 alert := some alertNoTrans }] }

/-- Entity and feed around `alertEmptyTrans` (fixture). -/
def feedAET : FeedMessage :=
  { header := ⟨100⟩,
    entity := [{ id := "a1", vehicle := Option.none, trip_update := Option.none,
                 alert := some alertEmptyTrans }] }

/-- An entity whose vehicle position has every optional sub-message unset
(fixture). -/
def entW : Entity :=
  { id := "w", vehicle := some defVP, trip_update := Option.none, alert := Option.none }

/-- A stop-time update with only an arrival (fixture). -/
def stuA : StopTimeUpdate :=
  { stop_sequence := 1, stop_id := "s1", arrival := some ⟨30, 1000⟩,
    departure := Option.none, schedule_relationship := 0 }

/-- A stop-time update with neither arrival nor departure (fixture). -/
def stuB : StopTimeUpdate :=
  { stop_sequence := 2, stop_id := "s2", arrival := Option.none,
    departure := Option.none, schedule_relationship := 0 }

/-- A trip update with two stop-time updates (fixture). -/
def tuW : TripUpdate :=
  { trip := some ⟨"t1", "r1", 0, "20260203"⟩, vehicle := Option.none,
    stop_time_update := [stuA, stuB] }

/-- An entity carrying `tuW` (fixture). -/
def entTUW : Entity :=
  { id := "e1", vehicle := Option.none, trip_update := some tuW, alert := Option.none }

/-- An alert entity with zero informed entities (fixture). -/
def entAW0 : Entity :=
  { id := "al0", vehicle := Option.none, trip_update := Option.none,
    alert := some { informed_entity := [], cause := 3, effect := 4,
                    header_text := some ⟨[⟨"hdr"⟩]⟩, description_text := Option.none } }

/-- An informed entity selecting a route and a stop (fixture). -/
def selW : EntitySelector :=
  { agency_id := "ag", route_id := "r9", trip := Option.none, stop_id := "st" }

/-- An alert entity with two informed entities (fixture). -/
def entAW2 : Entity :=
  { id := "al2", vehicle := Option.none, trip_update := Option.none,
    alert := some { informed_entity := [selW, selW], cause := 3, effect := 4,
                    header_text := Option.none, description_text := Option.none } }

/-- An entity whose vehicle position lacks the `position` sub-message but
has the other two (fixture). -/
def entPW : Entity :=
  { id := "v1",
    vehicle := some { trip := some ⟨"t1", "r1", 1, "20260203"⟩,
                      vehicle := some ⟨"veh", "lbl"⟩, position := Option.none,
                      current_stop_sequence := 4, stop_id := "s4",
                      current_status := 2, timestamp := 99 },
    trip_update := Option.none, alert := Option.none }

/-- A network oracle that always fails (fixture). -/
def getFailW : String → Nat → HttpResult := fun _ _ => .networkFailure

/-- A decoding oracle that always rejects (fixture). -/
def decodeNoneW : List Nat → Option FeedMessage := fun _ => Option.none

/-- An entity whose `vehicle` variant is unset — e.g. a trip-update
entity fed to the vehicle-position flattener (fixture). -/
def entNoVehW : Entity :=
  { id := "x", vehicle := Option.none, trip_update := some tuW, alert := Option.none }

/-- A feed holding only `entNoVehW` (fixture). -/
def feedNV : FeedMessage := { header := ⟨100⟩, entity := [entNoVehW] }

lemma findFile_setFile (l : List (String × List FlatRow)) (p : String) (v : List FlatRow) :
    findFile (setFile l p v) p = some v := by
  induction l with
  | nil => simp [setFile, findFile]
  | cons hd t ih =>
      by_cases h : hd.1 = p
      · simp [setFile, findFile, h]
      · simp [setFile, findFile, h, ih]

lemma processOne_snd (fetchO : String → Except IngestError FeedMessage)
    (storeO : String → Option IngestError) (fs : Fs) (today feed_type url : String) :
    (processOne fetchO storeO fs today feed_type url).2 = stageOutcome fetchO storeO feed_type url := by
  cases hf : fetchO url with
  | error e => simp [processOne, stageOutcome, hf]
  | ok feed =>
      cases hs : storeO feed_type <;> simp [processOne, stageOutcome, hf, hs]

lemma run_cycle_log (fetchO : String → Except IngestError FeedMessage)
    (storeO : String → Option IngestError) (today : String) :
    ∀ (feeds : List (String × String)) (fs : Fs),
      (run_cycle fetchO storeO today fs feeds).2 =
        feeds.map (fun p => (p.1, stageOutcome fetchO storeO p.1 p.2)) := by
  intro feeds
  induction feeds with
  | nil => intro fs; rfl
  | cons p rest ih =>
      intro fs
      simp [run_cycle, ih, processOne_snd]

/-- Claim C1 (evaluation at the failing input): on an existing partition
with a non-empty incoming batch, the rewrite of the combined rows is a
single direct `write` to the final partition path — the trace contains no
write to a temporary path and no rename. The claimed
temporary-path-then-rename step is absent, so the rewrite is not atomic:
a crash during the direct write can leave a truncated partition. -/
theorem C1_rewrite_not_atomic :
    (append_to_parquet fsC1 [rowB] "vehicle_positions" "2026-02-03").2 =
      [FsOp.mkdir (partDir "vehicle_positions"),
       FsOp.readFile (partPath "vehicle_positions" "2026-02-03"),
       FsOp.write (partPath "vehicle_positions" "2026-02-03") [rowA, rowB]] ∧
    hasRename (append_to_parquet fsC1 [rowB] "vehicle_positions" "2026-02-03").2 = false ∧
    writesOutside (append_to_parquet fsC1 [rowB] "vehicle_positions" "2026-02-03").2
      (partPath "vehicle_positions" "2026-02-03") = false := by
  refine ⟨?_, ?_, ?_⟩ <;> decide

/-- Claim C2 (counterexample): for the alert flattener, a feed whose
alert has an absent translated-text block yields `header_text` equal to
the empty string — not the absence marker `Value.none` the code uses for
every other absent field — and the produced row is identical to the row
produced when the block is present with one empty-text translation. The
encoding of the absent block therefore coincides with a valid domain
value, contradicting the claim that absent sub-structures are encoded by
a marker distinct from any valid domain value such as the empty string. -/
theorem C2_counterexample :
    List.lookup "header_text" ((parse_alerts feedANT).headD []) = some (Value.s "") ∧
    Value.s "" ≠ Value.none ∧
    parse_alerts feedANT = parse_alerts feedAET := by
  refine ⟨?_, ?_, ?_⟩ <;> decide

/-- Claim C2 (amended): every row a flattener produces carries that feed
kind's identical, fixed list of field names — no field is ever omitted —
and every field sourced from an absent Trip, Vehicle descriptor,
Position, arrival, departure or informed entity is populated with the
explicit absence marker `Value.none`; the header and description text
fields sourced from an absent translated text block, however, are
populated with the empty string, a value not distinct from the valid
empty-text domain value. -/
theorem C2_fixed_schema_and_markers :
    (∀ feed r, r ∈ parse_vehicle_positions feed → r.map Prod.fst = vpFieldNames) ∧
    (∀ feed r, r ∈ parse_trip_updates feed → r.map Prod.fst = tuFieldNames) ∧
    (∀ feed r, r ∈ parse_alerts feed → r.map Prod.fst = alertFieldNames) ∧
    (∀ ts e, (e.vehicle.getD defVP).trip = Option.none →
      (vpRow ts e)[2]? = some ("trip_id", Value.none) ∧
      (vpRow ts e)[3]? = some ("route_id", Value.none) ∧
      (vpRow ts e)[4]? = some ("direction_id", Value.none) ∧
      (vpRow ts e)[5]? = some ("start_date", Value.none)) ∧
    (∀ ts e, (e.vehicle.getD defVP).vehicle = Option.none →
      (vpRow ts e)[6]? = some ("vehicle_id", Value.none) ∧
      (vpRow ts e)[7]? = some ("vehicle_label", Value.none)) ∧
    (∀ ts e, (e.vehicle.getD defVP).position = Option.none →
      (vpRow ts e)[8]? = some ("latitude", Value.none) ∧
      (vpRow ts e)[9]? = some ("longitude", Value.none) ∧
      (vpRow ts e)[10]? = some ("bearing", Value.none) ∧
      (vpRow ts e)[11]? = some ("speed", Value.none)) ∧
    (∀ ts eid tu stu, tu.trip = Option.none →
      (tuRow ts eid tu stu)[2]? = some ("trip_id", Value.none) ∧
      (tuRow ts eid tu stu)[3]? = some ("route_id", Value.none) ∧
      (tuRow ts eid tu stu)[4]? = some ("start_date", Value.none)) ∧
    (∀ ts eid tu stu, tu.vehicle = Option.none →
      (tuRow ts eid tu stu)[5]? = some ("vehicle_id", Value.none)) ∧
    (∀ ts eid tu stu, stu.arrival = Option.none →
      (tuRow ts eid tu stu)[8]? = some ("arrival_delay", Value.none) ∧
      (tuRow ts eid tu stu)[9]? = some ("arrival_time", Value.none)) ∧
    (∀ ts eid tu stu, stu.departure = Option.none →
      (tuRow ts eid tu stu)[10]? = some ("departure_delay", Value.none) ∧
      (tuRow ts eid tu stu)[11]? = some ("departure_time", Value.none)) ∧
    (∀ ts eid alert,
      (alertRow ts eid alert Option.none)[6]? = some ("route_id", Value.none) ∧
      (alertRow ts eid alert Option.none)[7]? = some ("trip_id", Value.none) ∧
      (alertRow ts eid alert Option.none)[8]? = some ("stop_id", Value.none) ∧
      (alertRow ts eid alert Option.none)[9]? = some ("agency_id", Value.none)) ∧
    (∀ ts eid alert sel, sel.trip = Option.none →
      (alertRow ts eid alert (some sel))[7]? = some ("trip_id", Value.none)) ∧
    (∀ ts eid alert ie, alert.header_text = Option.none →
      (alertRow ts eid alert ie)[4]? = some ("header_text", Value.s "")) ∧
    (∀ ts eid alert ie, alert.description_text = Option.none →
      (alertRow ts eid alert ie)[5]? = some ("description_text", Value.s "")) := by
  refine ⟨?_, ?_, ?_, ?_, ?_, ?_, ?_, ?_, ?_, ?_, ?_, ?_, ?_, ?_⟩
  · intro feed r hr
    obtain ⟨e, _, rfl⟩ := List.mem_map.1 hr
    rfl
  · intro feed r hr
    rw [parse_trip_updates, List.mem_flatMap] at hr
    obtain ⟨e, _, hr⟩ := hr
    simp only [tuRows] at hr
    obtain ⟨stu, _, rfl⟩ := List.mem_map.1 hr
    rfl
  · intro feed r hr
    rw [parse_alerts, List.mem_flatMap] at hr
    obtain ⟨e, _, hr⟩ := hr
    simp only [alertRows] at hr
    obtain ⟨ie, _, rfl⟩ := List.mem_map.1 hr
    rfl
  · intro ts e h
    simp only [vpRow, h]
    exact ⟨rfl, rfl, rfl, rfl⟩
  · intro ts e h
    simp only [vpRow, h]
    exact ⟨rfl, rfl⟩
  · intro ts e h
    simp only [vpRow, h]
    exact ⟨rfl, rfl, rfl, rfl⟩
  · intro ts eid tu stu h
    simp only [tuRow, h]
    exact ⟨rfl, rfl, rfl⟩
  · intro ts eid tu stu h
    simp only [tuRow, h]
    rfl
  · intro ts eid tu stu h
    simp only [tuRow, h]
    exact ⟨rfl, rfl⟩
  · intro ts eid tu stu h
    simp only [tuRow, h]
    exact ⟨rfl, rfl⟩
  · intro ts eid alert
    exact ⟨rfl, rfl, rfl, rfl⟩
  · intro ts eid alert sel h
    simp only [alertRow, h]
    rfl
  · intro ts eid alert ie h
    simp only [alertRow, h]
    rfl
  · intro ts eid alert ie h
    simp only [alertRow, h]
    rfl

/-- Claim C2 (witness): the amended theorem applied at concrete inputs —
an entity whose vehicle position has an unset trip, and an alert with no
informed entities and no header translation. -/
theorem C2_fixed_schema_and_markers_witness :
    (vpRow 7 entW)[2]? = some ("trip_id", Value.none) ∧
    (alertRow 7 "w" defAlert Option.none)[6]? = some ("route_id", Value.none) ∧
    (alertRow 7 "w" defAlert Option.none)[4]? = some ("header_text", Value.s "") ∧
    (vpRow 100 (feedNV.entity.headD entW)).map Prod.fst = vpFieldNames := by
  obtain ⟨k1, k2, k3, hvp1, hvp2, hvp3, htu1, htu2, htu3, htu4, hal1, hal2, hal3, hal4⟩ :=
    C2_fixed_schema_and_markers
  refine ⟨(hvp1 7 entW rfl).1, (hal1 7 "w" defAlert).1, hal3 7 "w" defAlert Option.none rfl, ?_⟩
  exact k1 feedNV (vpRow 100 (feedNV.entity.headD entW)) (by decide)

/-- Claim C3: the trip-update flattener is the concatenation of
per-entity blocks; an entity's block has exactly as many rows as the
entity has stop-time updates (including zero), and every row of a block
carries that entity's id and that entity's trip id, broadcast unchanged. -/
theorem C3_trip_update_fanout :
    (∀ feed, parse_trip_updates feed =
      (feed.entity.map (tuRows feed.header.timestamp)).flatten) ∧
    (∀ ts e, (tuRows ts e).length =
      (e.trip_update.getD defTU).stop_time_update.length) ∧
    (∀ ts e r, r ∈ tuRows ts e →
      r[1]? = some ("entity_id", Value.s e.id) ∧
      r[2]? = some ("trip_id",
        match (e.trip_update.getD defTU).trip with
        | some t => Value.s t.trip_id
        | Option.none => Value.none)) := by
  refine ⟨?_, ?_, ?_⟩
  · intro feed
    exact List.flatMap_def feed.entity (tuRows feed.header.timestamp)
  · intro ts e
    simp [tuRows]
  · intro ts e r hr
    simp only [tuRows] at hr
    obtain ⟨stu, _, rfl⟩ := List.mem_map.1 hr
    exact ⟨rfl, rfl⟩

/-- Claim C3 (witness): the theorem applied to a concrete entity with two
stop-time updates. -/
theorem C3_trip_update_fanout_witness :
    (tuRows 5 entTUW).length = 2 ∧
    (tuRow 5 entTUW.id tuW stuA)[1]? = some ("entity_id", Value.s entTUW.id) := by
  have h := C3_trip_update_fanout
  have hm : tuRow 5 entTUW.id tuW stuA ∈ tuRows 5 entTUW := by decide
  exact ⟨h.2.1 5 entTUW, (h.2.2 5 entTUW _ hm).1⟩

/-- Claim C4: the alert flattener is the concatenation of per-entity
blocks; an alert with zero informed entities contributes exactly one row
whose route, trip, stop and agency fields are all the absence marker,
and an alert with a non-empty informed-entity list contributes exactly
one row per informed entity. -/
theorem C4_alert_fanout :
    (∀ feed, parse_alerts feed =
      (feed.entity.map (alertRows feed.header.timestamp)).flatten) ∧
    (∀ ts e, (e.alert.getD defAlert).informed_entity = [] →
      (alertRows ts e).length = 1 ∧
      ∀ r ∈ alertRows ts e,
        r[6]? = some ("route_id", Value.none) ∧
        r[7]? = some ("trip_id", Value.none) ∧
        r[8]? = some ("stop_id", Value.none) ∧
        r[9]? = some ("agency_id", Value.none)) ∧
    (∀ ts e l, (e.alert.getD defAlert).informed_entity = l → l ≠ [] →
      (alertRows ts e).length = l.length) := by
  refine ⟨?_, ?_, ?_⟩
  · intro feed
    exact List.flatMap_def feed.entity (alertRows feed.header.timestamp)
  · intro ts e h
    refine ⟨by simp [alertRows, h], ?_⟩
    intro r hr
    simp only [alertRows, h] at hr
    rw [List.map_singleton, List.mem_singleton] at hr
    subst hr
    exact ⟨rfl, rfl, rfl, rfl⟩
  · intro ts e l h hne
    cases l with
    | nil => exact absurd rfl hne
    | cons a t => simp [alertRows, h]

/-- Claim C4 (witness): the theorem applied to a concrete alert entity
with zero informed entities and one with two. -/
theorem C4_alert_fanout_witness :
    (alertRows 9 entAW0).length = 1 ∧
    ((alertRows 9 entAW0).headD [])[6]? = some ("route_id", Value.none) ∧
    (alertRows 9 entAW2).length = [selW, selW].length := by
  have h := C4_alert_fanout
  have h0 := h.2.1 9 entAW0 rfl
  have hm : (alertRows 9 entAW0).headD [] ∈ alertRows 9 entAW0 := by decide
  exact ⟨h0.1, (h0.2 _ hm).1, h.2.2 9 entAW2 [selW, selW] rfl (by decide)⟩

/-- Claim C5: one cycle of the poll loop attempts every configured feed
kind, in order, and logs each feed kind's own outcome — the outcome
(success, or the transport/decode/storage error its stages raised) of
every feed kind is recorded in the cycle log regardless of what any other
feed kind's stages did, so no feed kind's failure aborts the others. -/
theorem C5_per_feed_isolation :
    ∀ (fetchO : String → Except IngestError FeedMessage)
      (storeO : String → Option IngestError) (today : String) (fs : Fs),
      (run_once fetchO storeO today fs).2 =
        FEEDS.map (fun p => (p.1, stageOutcome fetchO storeO p.1 p.2)) ∧
      ((run_once fetchO storeO today fs).2).map Prod.fst = FEEDS.map Prod.fst ∧
      FEEDS.map Prod.fst = ["vehicle_positions", "trip_updates", "alerts"] := by
  intro fetchO storeO today fs
  have hl := run_cycle_log fetchO storeO today FEEDS fs
  refine ⟨hl, ?_, rfl⟩
  rw [show (run_once fetchO storeO today fs).2 = (run_cycle fetchO storeO today fs FEEDS).2 from rfl,
    hl, List.map_map]
  rfl

lemma append_to_parquet_existing (fs : Fs) (E : List FlatRow) (r : FlatRow)
    (rs : List FlatRow) (feed_type today : String)
    (hE : findFile fs.files (partPath feed_type today) = some E) :
    (append_to_parquet fs (r :: rs) feed_type today).1.files =
      setFile fs.files (partPath feed_type today) (E ++ (r :: rs)) := by
  simp [append_to_parquet, hE]

/-- Claim C6: appending a non-empty batch `R` to a partition holding `E`
leaves the partition holding exactly `E ++ R` — existing rows first, in
order, new rows at the end, none removed — and appending the same batch
again yields `E ++ R ++ R`, i.e. exactly twice the batch's row count on
top of what was there before. -/
theorem C6_append_concat :
    ∀ (fs : Fs) (E R : List FlatRow) (feed_type today : String), R ≠ [] →
      findFile fs.files (partPath feed_type today) = some E →
      (findFile ((append_to_parquet fs R feed_type today).1).files
          (partPath feed_type today) = some (E ++ R) ∧
       findFile ((append_to_parquet (append_to_parquet fs R feed_type today).1
            R feed_type today).1).files (partPath feed_type today) = some (E ++ R ++ R) ∧
       (E ++ R ++ R).length = E.length + 2 * R.length) := by
  intro fs E R feed_type today hR hE
  cases R with
  | nil => exact absurd rfl hR
  | cons r rs =>
      have h1 := append_to_parquet_existing fs E r rs feed_type today hE
      have hfst : findFile ((append_to_parquet fs (r :: rs) feed_type today).1).files
          (partPath feed_type today) = some (E ++ (r :: rs)) := by
        rw [h1]; exact findFile_setFile ..
      have h2 := append_to_parquet_existing (append_to_parquet fs (r :: rs) feed_type today).1
        (E ++ (r :: rs)) r rs feed_type today hfst
      refine ⟨hfst, ?_, ?_⟩
      · rw [h2]; exact findFile_setFile ..
      · simp [List.length_append]; ring

/-- Claim C6 (witness): the theorem applied to a concrete one-row
partition and a concrete one-row batch. -/
theorem C6_append_concat_witness :
    findFile ((append_to_parquet fsC6 [rowB] "alerts" "2026-02-03").1).files
        (partPath "alerts" "2026-02-03") = some ([rowA] ++ [rowB]) ∧
    findFile ((append_to_parquet (append_to_parquet fsC6 [rowB] "alerts" "2026-02-03").1
        [rowB] "alerts" "2026-02-03").1).files (partPath "alerts" "2026-02-03") =
      some ([rowA] ++ [rowB] ++ [rowB]) ∧
    ([rowA] ++ [rowB] ++ [rowB]).length = [rowA].length + 2 * [rowB].length :=
  C6_append_concat fsC6 [rowA] [rowB] "alerts" "2026-02-03" (by decide) (by decide)

/-- Claim C7: for an entity whose vehicle position lacks the `position`
sub-message, the produced row's latitude, longitude, bearing and speed
fields are all the absence marker; the flattener is a total function that
still produces exactly one row for every entity of the feed, so no
exception propagates. -/
theorem C7_absent_position :
    (∀ ts e, (e.vehicle.getD defVP).position = Option.none →
      (vpRow ts e)[8]? = some ("latitude", Value.none) ∧
      (vpRow ts e)[9]? = some ("longitude", Value.none) ∧
      (vpRow ts e)[10]? = some ("bearing", Value.none) ∧
      (vpRow ts e)[11]? = some ("speed", Value.none)) ∧
    (∀ feed, (parse_vehicle_positions feed).length = feed.entity.length) := by
  constructor
  · intro ts e h
    simp only [vpRow, h]
    exact ⟨rfl, rfl, rfl, rfl⟩
  · intro feed
    simp [parse_vehicle_positions]

/-- Claim C7 (witness): the theorem applied to a concrete entity whose
vehicle position has trip and vehicle sub-messages but no position. -/
theorem C7_absent_position_witness :
    (vpRow 3 entPW)[8]? = some ("latitude", Value.none) ∧
    (vpRow 3 entPW)[11]? = some ("speed", Value.none) := by
  have h := (C7_absent_position.1 3 entPW rfl)
  exact ⟨h.1, h.2.2.2⟩

/-- Claim C8: the feed client issues exactly one GET with a 30-second
timeout (no retry); it fails with a transport error exactly when the
network fails or the status code is in the 400-599 range that
`raise_for_status` rejects; it fails with a decode error exactly when the
status is accepted but the payload does not parse as a feed message; and
it returns `m` exactly when the status is accepted and the payload
decodes to `m`. -/
theorem C8_fetch_contract :
    ∀ (get : String → Nat → HttpResult) (decodeFM : List Nat → Option FeedMessage)
      (url : String),
      (fetch_feed get decodeFM url).2 = [HttpGetCall.mk url 30] ∧
      ((fetch_feed get decodeFM url).1 = .error .transport ↔
        get url 30 = .networkFailure ∨
        ∃ status body, get url 30 = .response status body ∧
          400 ≤ status ∧ status < 600) ∧
      ((fetch_feed get decodeFM url).1 = .error .decode ↔
        ∃ status body, get url 30 = .response status body ∧
          ¬(400 ≤ status ∧ status < 600) ∧ decodeFM body = Option.none) ∧
      (∀ m, (fetch_feed get decodeFM url).1 = .ok m ↔
        ∃ status body, get url 30 = .response status body ∧
          ¬(400 ≤ status ∧ status < 600) ∧ decodeFM body = some m) := by
  intro get decodeFM url
  cases hg : get url 30 with
  | networkFailure =>
      refine ⟨by simp [fetch_feed, hg], ?_, ?_, ?_⟩
      · simp [fetch_feed, hg]
      · simp [fetch_feed, hg]
      · intro m; simp [fetch_feed, hg]
  | response status body =>
      by_cases hs : 400 ≤ status ∧ status < 600
      · refine ⟨by simp [fetch_feed, hg, hs], ?_, ?_, ?_⟩
        · simp only [fetch_feed, hg, if_pos hs]
          simp [hg, hs]
        · simp only [fetch_feed, hg, if_pos hs]
          simp [hg, hs]
        · intro m
          simp only [fetch_feed, hg, if_pos hs]
          simp [hg, hs]
      · cases hd : decodeFM body with
        | none =>
            refine ⟨by simp [fetch_feed, hg, hs, hd], ?_, ?_, ?_⟩
            · simp only [fetch_feed, hg, if_neg hs]
              simp [hg, hs, hd]
            · simp only [fetch_feed, hg, if_neg hs]
              simp only [hd]
              simp [hg]
              exact ⟨status, body, ⟨rfl, rfl⟩, by omega, hd⟩
            · intro m
              simp only [fetch_feed, hg, if_neg hs]
              simp [hg, hs, hd]
        | some feed =>
            refine ⟨by simp [fetch_feed, hg, hs, hd], ?_, ?_, ?_⟩
            · simp only [fetch_feed, hg, if_neg hs]
              simp [hg, hs, hd]
            · simp only [fetch_feed, hg, if_neg hs]
              simp [hg, hs, hd]
            · intro m
              simp only [fetch_feed, hg, if_neg hs]
              simp only [hd]
              simp [hg]
              constructor
              · rintro rfl
                exact ⟨status, body, ⟨rfl, rfl⟩, by omega, hd⟩
              · rintro ⟨s1, b1, ⟨rfl, rfl⟩, -, hdm⟩
                rw [hd] at hdm
                exact Option.some.inj hdm

/-- Claim C8 (witness): the theorem applied to a concrete always-failing
network oracle. -/
theorem C8_fetch_contract_witness :
    (fetch_feed getFailW decodeNoneW "u").1 = .error .transport ∧
    (fetch_feed getFailW decodeNoneW "u").2 = [HttpGetCall.mk "u" 30] := by
  have h := C8_fetch_contract getFailW decodeNoneW "u"
  exact ⟨h.2.1.mpr (Or.inl rfl), h.1⟩

/-- Claim C9: the vehicle-position flattener emits exactly one row per
entity of the feed — it is a map over the entity list with no variant
check — and an entity whose `vehicle` variant is unset yields the
default-instance row: absent markers for every optional-sub-message field
and the proto defaults for the always-present scalars. -/
theorem C9_one_row_per_entity :
    (∀ feed, (parse_vehicle_positions feed).length = feed.entity.length) ∧
    (∀ feed, parse_vehicle_positions feed =
      feed.entity.map (vpRow feed.header.timestamp)) ∧
    (∀ ts e, e.vehicle = Option.none →
      vpRow ts e =
        [("feed_timestamp", Value.i ts), ("entity_id", Value.s e.id),
         ("trip_id", Value.none), ("route_id", Value.none),
         ("direction_id", Value.none), ("start_date", Value.none),
         ("vehicle_id", Value.none), ("vehicle_label", Value.none),
         ("latitude", Value.none), ("longitude", Value.none),
         ("bearing", Value.none), ("speed", Value.none),
         ("current_stop_sequence", Value.i 0), ("stop_id", Value.none),
         ("current_status", Value.i 0), ("vehicle_timestamp", Value.i 0)]) := by
  refine ⟨?_, fun _ => rfl, ?_⟩
  · intro feed
    simp [parse_vehicle_positions]
  · intro ts e h
    simp only [vpRow, h]
    rfl

/-- Claim C9 (witness): the theorem applied to a feed holding a single
trip-update entity (no `vehicle` variant): one row is still produced, its
optional fields all absent and its scalars the proto defaults. -/
theorem C9_one_row_per_entity_witness :
    (parse_vehicle_positions feedNV).length = feedNV.entity.length ∧
    (vpRow 100 entNoVehW)[2]? = some ("trip_id", Value.none) := by
  have h := C9_one_row_per_entity
  refine ⟨h.1 feedNV, ?_⟩
  rw [h.2.2 100 entNoVehW rfl]
  rfl

/-- Claim C10: appending an empty row batch is a complete no-op — the
function returns before touching the filesystem, so the state is
unchanged and the operation trace is empty: no directory created, no
partition created, nothing read or rewritten. -/
theorem C10_empty_batch_noop :
    ∀ (fs : Fs) (feed_type today : String),
      append_to_parquet fs [] feed_type today = (fs, []) :=
  fun _ _ _ => rfl
